import Mathlib

/-!
Verification of the voice-session relay and tool-dispatch core
(`backend/api/v1/endpoints/realtime.py`).

The Python module is shallowly embedded: the values the code manipulates
(JSON-serialisable Python objects, parsed protocol events, session state)
become Lean inductive types, and each method of `RealtimeSession` becomes a
Lean function on those types.  External collaborators (the agent objects
`shopping_agent`, `orders_agent`, `returns_agent`, `image_agent`,
`cross_sell_agent`, the Cosmos store and the YouTube tool) perform network
I/O; their behaviour is a parameter (`DispatchBehavior` oracle) of the
embedding, exactly as they are injected dependencies of the session.
-/

namespace Realtime

/-- Embedding of a Python `datetime.datetime` value (the fields that
`isoformat` renders). -/
structure PyDatetime where
  year : Nat
  month : Nat
  day : Nat
  hour : Nat
  minute : Nat
  second : Nat
deriving DecidableEq, Repr

/-- Zero-padding to two digits, as `datetime.isoformat` renders month, day,
hour, minute and second. -/
def pad2 (n : Nat) : String :=
  if n < 10 then "0" ++ toString n else toString n

/-- Zero-padding to four digits, as `datetime.isoformat` renders the year. -/
def pad4 (n : Nat) : String :=
  if n < 10 then "000" ++ toString n
  else if n < 100 then "00" ++ toString n
  else if n < 1000 then "0" ++ toString n
  else toString n

/-- Embedding of `datetime.isoformat()` for second-resolution datetimes:
`YYYY-MM-DDTHH:MM:SS`. -/
def isoformat (d : PyDatetime) : String :=
  pad4 d.year ++ "-" ++ pad2 d.month ++ "-" ++ pad2 d.day ++ "T" ++
    pad2 d.hour ++ ":" ++ pad2 d.minute ++ ":" ++ pad2 d.second

mutual
/-- A Python value built from dicts, lists, datetimes and JSON scalars —
the domain of `serialize_for_json`. -/
inductive PyVal where
  | dt (d : PyDatetime)
  | str (s : String)
  | int (n : Int)
  | bool (b : Bool)
  | none
  | dict (kvs : PyFields)
  | list (xs : PyList)
deriving DecidableEq, Repr

/-- The key/value entries of an embedded Python dict, in insertion order. -/
inductive PyFields where
  | nil
  | cons (k : String) (v : PyVal) (rest : PyFields)
deriving DecidableEq, Repr

/-- The elements of an embedded Python list, in order. -/
inductive PyList where
  | nil
  | cons (v : PyVal) (rest : PyList)
deriving DecidableEq, Repr
end

mutual
/-- Embedding of `serialize_for_json` (realtime.py lines 34–42): recursively
convert datetime objects to ISO strings; dicts and lists are rebuilt with
converted members; every other value is returned unchanged. -/
def serialize_for_json : PyVal → PyVal
  | .dt d => .str (isoformat d)
  | .dict kvs => .dict (serializeFields kvs)
  | .list xs => .list (serializeList xs)
  | .str s => .str s
  | .int n => .int n
  | .bool b => .bool b
  | .none => .none

/-- `serialize_for_json` mapped over dict entries (the dict comprehension of
line 39): keys are untouched, values are converted. -/
def serializeFields : PyFields → PyFields
  | .nil => .nil
  | .cons k v rest => .cons k (serialize_for_json v) (serializeFields rest)

/-- `serialize_for_json` mapped over list elements (the list comprehension of
line 41). -/
def serializeList : PyList → PyList
  | .nil => .nil
  | .cons v rest => .cons (serialize_for_json v) (serializeList rest)
end

mutual
/-- `true` iff no `datetime` occurs anywhere in the value. -/
def noDatetime : PyVal → Bool
  | .dt _ => false
  | .dict kvs => noDatetimeFields kvs
  | .list xs => noDatetimeList xs
  | _ => true

/-- `noDatetime` over dict entries. -/
def noDatetimeFields : PyFields → Bool
  | .nil => true
  | .cons _ v rest => noDatetime v && noDatetimeFields rest

/-- `noDatetime` over list elements. -/
def noDatetimeList : PyList → Bool
  | .nil => true
  | .cons v rest => noDatetime v && noDatetimeList rest
end

/-- Python dict lookup (`.get` / `in`): value of the first matching key. -/
def PyFields.get : PyFields → String → Option PyVal
  | .nil, _ => Option.none
  | .cons k v rest, key => if k = key then some v else rest.get key

/-- `.get` lifted to a value known to be a dict (every `handle_tool_call`
result is one). -/
def PyVal.getKey : PyVal → String → Option PyVal
  | .dict kvs, key => kvs.get key
  | _, _ => Option.none

/-- Python `key in result_data` on a dict value. -/
def PyVal.hasKey (v : PyVal) (key : String) : Bool :=
  (v.getKey key).isSome

/-- Number of entries of an embedded dict. -/
def PyFields.size : PyFields → Nat
  | .nil => 0
  | .cons _ _ rest => rest.size + 1

/-- Number of elements of an embedded list. -/
def PyList.size : PyList → Nat
  | .nil => 0
  | .cons _ rest => rest.size + 1

/-- Python truthiness of the embedded values. -/
def pyTruthy : PyVal → Bool
  | .dt _ => true
  | .str s => !s.isEmpty
  | .int n => n != 0
  | .bool b => b
  | .none => false
  | .dict kvs => kvs.size != 0
  | .list xs => xs.size != 0

/-- Python `len()`: defined on lists, strings and dicts; `Option.none`
models the `TypeError` it raises elsewhere. -/
def pyLen : PyVal → Option Nat
  | .list xs => some xs.size
  | .str s => some s.length
  | .dict kvs => some kvs.size
  | _ => Option.none

/-- Python `str()` rendering for the values the relay interpolates into
result messages (no claim depends on the exact text of a container
rendering). -/
def pyStrOf : PyVal → String
  | .str s => s
  | .int n => toString n
  | .bool b => if b then "True" else "False"
  | .none => "None"
  | .dt d => isoformat d
  | .dict _ => "dict"
  | .list _ => "list"

/-- Builds dict entries from a Lean list, preserving order. -/
def fieldsOf : List (String × PyVal) → PyFields
  | [] => .nil
  | (k, v) :: rest => .cons k v (fieldsOf rest)

/-- Caller-bound frames: the JSON objects sent on the caller websocket via
`websocket.send_json`, identified by their `"type"` field. -/
inductive CallerMsg where
  | sessionReady (sessionId : String)
  | audioChunk (delta : String)
  | transcriptDelta (role : String) (delta : String)
  | userSpeechStarted
  | userSpeechStopped
  | userTranscript (text : String)
  | crossSell (context : String) (data : PyVal)
  | diyVideos (data : PyVal)
  | products (tool : String) (data : PyVal)
  | cartAction (action : PyVal) (data : PyVal)
  | orderAction (action : PyVal) (orderNumber : PyVal) (data : PyVal)
  | responseComplete
  | errorMsg (message : String)
  | imageReady (imageId : String) (message : String)
deriving DecidableEq, Repr

/-- Upstream-bound frames: the JSON objects sent on the OpenAI websocket via
`openai_ws.send`, identified by their `"type"` field.  The
`function_call_output` item's `output` is kept structural (the source passes
the `json.dumps` of this value; `json.dumps` is injective on it). -/
inductive UpstreamMsg where
  | sessionConfig
  | functionCallOutput (callId : String) (output : PyVal)
  | responseCreate
  | inputAudioAppend (data : String)
  | inputAudioCommit
  | userTextItem (text : String)
  | responseCancel
deriving DecidableEq, Repr

/-- Terminal behaviour of one agent-backed branch of `handle_tool_call`:
the branch assigned `result` (a dict — every agent and the YouTube tool
return dicts), raised (caught at line 685), or an awaited agent call never
completes. -/
inductive BranchOutcome where
  | ok (result : PyFields)
  | exn (msg : String)
  | hang
deriving DecidableEq, Repr

/-- Behaviour of one agent-backed branch of `handle_tool_call`: the
caller-bound frames it attempts to push (cross-sell / DIY-video pushes, each
individually guarded in the source by `if not self.websocket_closed`), and
its terminal outcome. -/
structure DispatchBehavior where
  sideSends : List CallerMsg
  outcome : BranchOutcome
deriving Repr

/-- The injected external collaborators (agents, Cosmos, YouTube tool),
abstracted as the behaviour of each agent-backed branch per tool name and
parsed arguments. -/
abbrev AgentOracle := String → PyFields → DispatchBehavior

/-- Tool names whose `handle_tool_call` branch awaits an external
collaborator (lines 511–611 and 659–663); listed in source branch order. -/
def agentTools : List String :=
  ["search_products", "get_product_details", "check_inventory", "create_order",
   "get_order_status", "initiate_return", "search_similar_products",
   "get_project_recommendations", "add_to_cart", "get_diy_videos"]

/-- Embedding of `RealtimeSession.handle_tool_call` (lines 505–687).
Returns the caller-bound frames sent while the branch ran, and the result:
`some r` is the value the method returns (`json.dumps` kept structural),
`Option.none` means an awaited call inside the branch never completes so the
method never returns.  Agent-backed branches (grouped here by membership in
`agentTools`; the source's `elif` chain tests the same disjoint names one at
a time) behave per the oracle; the cart/order UI branches compute their
result dicts as in the source; any other name takes the `else` branch
(line 679).  The computed result passes through `serialize_for_json`
(line 682); a branch exception is caught and turned into
`{"error": str(e)}` (line 687). -/
def handle_tool_call (oracle : AgentOracle) (toolName : String)
    (args : PyFields) (websocketClosed : Bool) : List CallerMsg × Option PyVal :=
  if agentTools.contains toolName then
    let b := oracle toolName args
    let sends := if websocketClosed then [] else b.sideSends
    match b.outcome with
    | .ok result => (sends, some (serialize_for_json (.dict result)))
    | .exn msg => (sends, some (.dict (fieldsOf [("error", .str msg)])))
    | .hang => (sends, Option.none)
  else if toolName = "view_cart" then
    ([], some (serialize_for_json (.dict (fieldsOf
      [("success", .bool true), ("action", .str "view_cart"),
       ("message", .str "Opening your shopping cart...")]))))
  else if toolName = "remove_from_cart" then
    ([], some (serialize_for_json (.dict (fieldsOf
      [("success", .bool true), ("action", .str "remove_from_cart"),
       ("product_id", (args.get "product_id").getD .none),
       ("message", .str "Removed item from your cart.")]))))
  else if toolName = "clear_cart" then
    ([], some (serialize_for_json (.dict (fieldsOf
      [("success", .bool true), ("action", .str "clear_cart"),
       ("message", .str "Your cart has been cleared.")]))))
  else if toolName = "view_orders" then
    ([], some (serialize_for_json (.dict (fieldsOf
      [("success", .bool true), ("action", .str "view_orders"),
       ("message", .str "Opening your order history...")]))))
  else if toolName = "get_order_by_number" then
    let orderNumber := (args.get "order_number").getD (.str "")
    ([], some (serialize_for_json (.dict (fieldsOf
      [("success", .bool true), ("action", .str "view_orders"),
       ("order_number", orderNumber),
       ("message", .str ("Looking up order " ++ pyStrOf orderNumber ++ "..."))]))))
  else
    ([], some (serialize_for_json (.dict (fieldsOf
      [("error", .str ("Unknown tool: " ++ toolName))]))))

/-- Status of the upstream websocket handle once assigned. -/
inductive ConnStatus where
  | opened
  | closed
deriving DecidableEq, Repr

/-- The fields of `RealtimeSession` the relay logic reads or writes
(`conversation_items` is never written).  `openai_ws` is `Option.none` until
`connect_to_openai` assigns it. -/
structure RealtimeSession where
  session_id : String
  is_active : Bool
  websocket_closed : Bool
  openai_ws : Option ConnStatus
deriving DecidableEq, Repr

/-- Embedding of `RealtimeSession.close` (lines 932–937): set `is_active`
to false and close the upstream websocket if one was assigned (closing an
already-closed `websockets` connection is a no-op, not an error). -/
def close (s : RealtimeSession) : RealtimeSession :=
  { s with is_active := false,
           openai_ws := s.openai_ws.map (fun _ => ConnStatus.closed) }

/-- Parsed upstream events (`json.loads(message)`, dispatched on the
`"type"` field) of `process_openai_messages`.  For
`response.function_call_arguments.done`, `args` is the outcome of
`json.loads` on the event's arguments string: `some` parsed dict, or
`Option.none` when the string is unparseable JSON, in which case
`json.loads` (line 756) raises. -/
inductive OpenAIEvent where
  | sessionCreated
  | responseAudioDelta (delta : String)
  | responseAudioTranscriptDelta (delta : String)
  | speechStarted
  | speechStopped
  | inputTranscriptionCompleted (transcript : String)
  | functionCallArgsDone (callId : String) (name : String) (args : Option PyFields)
  | responseDone
  | errorEvent (message : String)
  | otherEvent (eventType : String)
deriving DecidableEq, Repr

/-- Outcome of the `async for` body of `process_openai_messages` on one
event: `done` — completed, with the caller-bound and upstream-bound frames
sent, in order; `raised` — an exception escaped the body (ending the loop,
caught at line 833); `hung` — an awaited call inside the body never
completes, so the loop never proceeds. -/
inductive StepOut where
  | done (caller : List CallerMsg) (upstream : List UpstreamMsg)
  | raised (caller : List CallerMsg) (upstream : List UpstreamMsg) (msg : String)
  | hung (caller : List CallerMsg) (upstream : List UpstreamMsg)
deriving DecidableEq, Repr

/-- The DIY-video forwarding condition (line 783):
`result_data.get("videos") and len(result_data["videos"]) > 0`, with Python
semantics — a missing or falsy value short-circuits to no send, and `len`
of a truthy value with no length raises `TypeError`. -/
def videosCheck (resultData : PyVal) : Except String Bool :=
  match resultData.getKey "videos" with
  | Option.none => .ok false
  | some v =>
    if pyTruthy v then
      match pyLen v with
      | some n => .ok (decide (0 < n))
      | Option.none => .error "TypeError: object of this type has no len"
    else .ok false

/-- Tool names whose results are pushed to the frontend as `products`
(line 762). -/
def searchTools : List String :=
  ["search_products", "search_similar_products", "get_project_recommendations"]

/-- Tool names whose results are pushed to the frontend as `cart_action`
(line 772). -/
def cartTools : List String :=
  ["add_to_cart", "view_cart", "remove_from_cart", "clear_cart"]

/-- Tool names whose results are pushed to the frontend as `order_action`
(line 792). -/
def orderTools : List String := ["view_orders", "get_order_by_number"]

/-- Embedding of the `async for` body of `process_openai_messages`
(lines 692–831): classify one upstream event and emit the frames it sends.
Every caller-bound send is guarded by `if not self.websocket_closed` exactly
as in the source; for a completed tool call the two upstream-bound sends
(the `function_call_output` item, then `response.create`) follow the
frontend forwards.  `result_data` (line 759) is the `json.loads` of the
returned `json.dumps`, i.e. the result value itself. -/
def processOpenAIEvent (oracle : AgentOracle) (s : RealtimeSession)
    (ev : OpenAIEvent) : StepOut :=
  let gate : List CallerMsg → List CallerMsg :=
    fun xs => if s.websocket_closed then [] else xs
  match ev with
  | .sessionCreated => .done (gate [.sessionReady s.session_id]) []
  | .responseAudioDelta d => .done (gate [.audioChunk d]) []
  | .responseAudioTranscriptDelta d => .done (gate [.transcriptDelta "assistant" d]) []
  | .speechStarted => .done (gate [.userSpeechStarted]) []
  | .speechStopped => .done (gate [.userSpeechStopped]) []
  | .inputTranscriptionCompleted t => .done (gate [.userTranscript t]) []
  | .functionCallArgsDone callId name argsOpt =>
    match argsOpt with
    | Option.none => .raised [] [] "json.loads: Expecting value"
    | some args =>
      match handle_tool_call oracle name args s.websocket_closed with
      | (sends, Option.none) => .hung sends []
      | (sends, some res) =>
        let prodSends :=
          if searchTools.contains name && (res.hasKey "products" || !res.hasKey "error")
          then [CallerMsg.products name res] else []
        let cartSends :=
          if cartTools.contains name
          then [CallerMsg.cartAction ((res.getKey "action").getD .none) res] else []
        let diyStep : Except String (List CallerMsg) :=
          if name = "get_diy_videos" then
            (videosCheck res).map (fun b => if b then [CallerMsg.diyVideos res] else [])
          else .ok []
        match diyStep with
        | .error m => .raised (sends ++ gate (prodSends ++ cartSends)) [] m
        | .ok diySends =>
          let orderSends :=
            if orderTools.contains name
            then [CallerMsg.orderAction ((res.getKey "action").getD .none)
                    ((res.getKey "order_number").getD .none) res] else []
          .done (sends ++ gate (prodSends ++ cartSends ++ diySends ++ orderSends))
                [UpstreamMsg.functionCallOutput callId res, UpstreamMsg.responseCreate]
  | .responseDone => .done (gate [.responseComplete]) []
  | .errorEvent m => .done (gate [.errorMsg m]) []
  | .otherEvent _ => .done [] []

/-- Embedding of the `process_openai_messages` loop (lines 689–842): events
are handled in arrival order and their frames emitted in order; the
`if not self.is_active: break` check heads each iteration; an exception
escaping the body ends the loop and the handler at line 833 sends one final
caller-bound error frame when `is_active and not websocket_closed`; a hung
body never proceeds. -/
def processOpenAIMessages (oracle : AgentOracle) (s : RealtimeSession) :
    List OpenAIEvent → List CallerMsg × List UpstreamMsg
  | [] => ([], [])
  | ev :: rest =>
    if s.is_active then
      match processOpenAIEvent oracle s ev with
      | .done c u =>
        let (c2, u2) := processOpenAIMessages oracle s rest
        (c ++ c2, u ++ u2)
      | .raised c u m =>
        (c ++ (if s.is_active && !s.websocket_closed then [CallerMsg.errorMsg m] else []), u)
      | .hung c u => (c, u)
    else ([], [])

/-- Parsed caller messages (`websocket.receive_json`, dispatched on the
`"type"` field) of `process_client_messages`. -/
inductive ClientMsg where
  | audioAppend (data : String)
  | audioCommit
  | sessionUpdate
  | responseCancel
  | textInput (text : String)
  | legacyCancel
  | imageUploaded (imageId : String)
  | otherClient (msgType : String)
deriving DecidableEq, Repr

/-- Embedding of the `while` body of `process_client_messages`
(lines 847–909): classify one caller message and emit the frames it sends.
Handling mutates no session state; `image.ready` (line 905) is the only
caller-bound send of this loop and is unguarded in the source. -/
def processClientMessage : ClientMsg → List CallerMsg × List UpstreamMsg
  | .audioAppend d => ([], [.inputAudioAppend d])
  | .audioCommit => ([], [.inputAudioCommit])
  | .sessionUpdate => ([], [])
  | .responseCancel => ([], [.responseCancel])
  | .textInput t => ([], [.userTextItem t, .responseCreate])
  | .legacyCancel => ([], [.responseCancel])
  | .imageUploaded imgId =>
    ([.imageReady imgId "Image uploaded. Ask me to find similar products!"], [])
  | .otherClient _ => ([], [])

/-- The `process_client_messages` loop (lines 844–916): while `is_active`,
receive and handle caller messages in arrival order. -/
def processClientMessages (s : RealtimeSession) :
    List ClientMsg → List CallerMsg × List UpstreamMsg
  | [] => ([], [])
  | m :: rest =>
    if s.is_active then
      let (c, u) := processClientMessage m
      let (c2, u2) := processClientMessages s rest
      (c ++ c2, u ++ u2)
    else ([], [])

/-- Whether opening the upstream websocket (line 455) succeeds or raises. -/
inductive ConnectOutcome where
  | ok
  | fail (msg : String)
deriving DecidableEq, Repr

/-- Embedding of `connect_to_openai` + `configure_session` (lines 417–503):
on success `openai_ws` is assigned and the `session.update` handshake is the
first upstream frame; on failure the exception is logged and re-raised
(line 470) — no frame of any kind is sent to the caller. -/
def connect_to_openai (s : RealtimeSession) (conn : ConnectOutcome) :
    Except String (RealtimeSession × List UpstreamMsg) :=
  match conn with
  | .ok => .ok ({ s with openai_ws := some ConnStatus.opened },
                [UpstreamMsg.sessionConfig])
  | .fail m => .error m

/-- The observable outcome of running a session to completion: final state,
the frames each loop sent on each connection, and any exception that
propagated out. -/
structure RunResult where
  final : RealtimeSession
  callerMsgs : List CallerMsg
  clientCallerMsgs : List CallerMsg
  upstreamMsgs : List UpstreamMsg
  clientUpstreamMsgs : List UpstreamMsg
  escapedExc : Option String
deriving DecidableEq, Repr

/-- Embedding of `RealtimeSession.run` (lines 918–930): connect, run both
loops concurrently (each trace is kept per loop; neither loop lets an
exception escape), then `close` in the `finally`.  `run` only raises when
`connect_to_openai` does — and `close` still runs, with no caller-bound
frame ever sent. -/
def run (oracle : AgentOracle) (conn : ConnectOutcome)
    (evs : List OpenAIEvent) (msgs : List ClientMsg)
    (s0 : RealtimeSession) : RunResult :=
  match connect_to_openai s0 conn with
  | .error m =>
    { final := close s0, callerMsgs := [], clientCallerMsgs := [],
      upstreamMsgs := [], clientUpstreamMsgs := [], escapedExc := some m }
  | .ok (s1, handshake) =>
    let (cA, uA) := processOpenAIMessages oracle s1 evs
    let (cB, uB) := processClientMessages s1 msgs
    { final := close s1, callerMsgs := cA, clientCallerMsgs := cB,
      upstreamMsgs := handshake ++ uA, clientUpstreamMsgs := uB,
      escapedExc := Option.none }

/-- Embedding of the `realtime_websocket` endpoint handler (lines 940–959):
accept, construct the session (`is_active = True`, `websocket_closed =
False`, `openai_ws = None`), `run` it, catch any escaping exception (only
logged), and `close` again in the `finally`; the handler then returns and
sends nothing further to the caller. -/
def realtime_websocket (oracle : AgentOracle) (conn : ConnectOutcome)
    (evs : List OpenAIEvent) (msgs : List ClientMsg) (sid : String) : RunResult :=
  let s0 : RealtimeSession :=
    { session_id := sid, is_active := true, websocket_closed := false,
      openai_ws := Option.none }
  let r := run oracle conn evs msgs s0
  { r with final := close r.final, escapedExc := Option.none }

/-- The caller-bound frames of a step outcome, whichever way it ended. -/
def StepOut.callerFrames : StepOut → List CallerMsg
  | .done c _ => c
  | .raised c _ _ => c
  | .hung c _ => c

/-- The upstream-bound frames of a step outcome, whichever way it ended. -/
def StepOut.upstreamFrames : StepOut → List UpstreamMsg
  | .done _ u => u
  | .raised _ u _ => u
  | .hung _ u => u

/-- Every tool name the `elif` chain of `handle_tool_call` recognises. -/
def knownTools : List String :=
  agentTools ++
    ["view_cart", "remove_from_cart", "clear_cart", "view_orders",
     "get_order_by_number"]

/-- The payload the `else` branch of `handle_tool_call` (line 679) produces
for an unregistered tool name. -/
def unknownToolResult (name : String) : PyVal :=
  .dict (fieldsOf [("error", .str ("Unknown tool: " ++ name))])

/-- How many `function_call_output` frames for a given callId a list of
upstream-bound frames contains. -/
def countResultsFor (callId : String) (l : List UpstreamMsg) : Nat :=
  l.countP (fun m =>
    match m with
    | .functionCallOutput cid _ => cid == callId
    | _ => false)

/-- Events the upstream loop merely forwards (audio, control, transcript
frames) — everything except a tool-call request. -/
def isForwardEvent : OpenAIEvent → Bool
  | .functionCallArgsDone _ _ _ => false
  | _ => true

/-- The caller-bound forward a non-tool upstream event produces when the
caller socket is open (read off the per-event branches of
`process_openai_messages`). -/
def forwardImage (sid : String) : OpenAIEvent → List CallerMsg
  | .sessionCreated => [.sessionReady sid]
  | .responseAudioDelta d => [.audioChunk d]
  | .responseAudioTranscriptDelta d => [.transcriptDelta "assistant" d]
  | .speechStarted => [.userSpeechStarted]
  | .speechStopped => [.userSpeechStopped]
  | .inputTranscriptionCompleted t => [.userTranscript t]
  | .responseDone => [.responseComplete]
  | .errorEvent m => [.errorMsg m]
  | .otherEvent _ => []
  | .functionCallArgsDone _ _ _ => []

/-- The audio payload of a caller-bound frame, when it is an audio frame. -/
def callerAudioOf : CallerMsg → Option String
  | .audioChunk d => some d
  | _ => Option.none

/-- The audio payload of an upstream audio-delta event. -/
def eventAudioOf : OpenAIEvent → Option String
  | .responseAudioDelta d => some d
  | _ => Option.none

/-- The audio payload of an upstream-bound frame, when it is an audio
append. -/
def upstreamAudioOf : UpstreamMsg → Option String
  | .inputAudioAppend d => some d
  | _ => Option.none

/-- The audio payload of a caller message, when it is an audio frame. -/
def clientAudioOf : ClientMsg → Option String
  | .audioAppend d => some d
  | _ => Option.none

/-- An oracle whose every agent-backed branch returns an empty dict and
pushes nothing. -/
def trivialOracle : AgentOracle := fun _ _ => ⟨[], .ok .nil⟩

/-- An oracle whose every agent-backed branch never completes (models a tool
handler exceeding any deadline — the source sets none). -/
def hangingOracle : AgentOracle := fun _ _ => ⟨[], .hang⟩

/-- An oracle whose every agent-backed branch raises. -/
def raisingOracle (msg : String) : AgentOracle := fun _ _ => ⟨[], .exn msg⟩

/-- A session in the steady `Active` state, as the endpoint constructs it
once `connect_to_openai` has succeeded. -/
def activeSession : RealtimeSession :=
  { session_id := "sid-1", is_active := true, websocket_closed := false,
    openai_ws := some ConnStatus.opened }

/-- A session whose caller socket has been flagged closed by the caller
loop. -/
def closedSockSession : RealtimeSession :=
  { activeSession with websocket_closed := true }

/-- Concatenation of per-item outputs in receipt order. -/
def concatMap {α β : Type} (f : α → List β) : List α → List β
  | [] => []
  | a :: rest => f a ++ concatMap f rest

mutual
theorem serialize_noDatetime : ∀ v : PyVal, noDatetime (serialize_for_json v) = true
  | .dt _ => rfl
  | .dict kvs => by
      simpa [serialize_for_json, noDatetime] using serializeFields_noDatetime kvs
  | .list xs => by
      simpa [serialize_for_json, noDatetime] using serializeList_noDatetime xs
  | .str _ => rfl
  | .int _ => rfl
  | .bool _ => rfl
  | .none => rfl

theorem serializeFields_noDatetime :
    ∀ kvs : PyFields, noDatetimeFields (serializeFields kvs) = true
  | .nil => rfl
  | .cons k v rest => by
      simp [serializeFields, noDatetimeFields, serialize_noDatetime v,
        serializeFields_noDatetime rest]

theorem serializeList_noDatetime :
    ∀ xs : PyList, noDatetimeList (serializeList xs) = true
  | .nil => rfl
  | .cons v rest => by
      simp [serializeList, noDatetimeList, serialize_noDatetime v,
        serializeList_noDatetime rest]
end

mutual
theorem serialize_id_of_noDatetime :
    ∀ v : PyVal, noDatetime v = true → serialize_for_json v = v
  | .dt _, h => by simp [noDatetime] at h
  | .dict kvs, h => by
      simp only [noDatetime] at h
      simp [serialize_for_json, serializeFields_id_of_noDatetime kvs h]
  | .list xs, h => by
      simp only [noDatetime] at h
      simp [serialize_for_json, serializeList_id_of_noDatetime xs h]
  | .str _, _ => rfl
  | .int _, _ => rfl
  | .bool _, _ => rfl
  | .none, _ => rfl

theorem serializeFields_id_of_noDatetime :
    ∀ kvs : PyFields, noDatetimeFields kvs = true → serializeFields kvs = kvs
  | .nil, _ => rfl
  | .cons k v rest, h => by
      simp only [noDatetimeFields, Bool.and_eq_true] at h
      simp [serializeFields, serialize_id_of_noDatetime v h.1,
        serializeFields_id_of_noDatetime rest h.2]

theorem serializeList_id_of_noDatetime :
    ∀ xs : PyList, noDatetimeList xs = true → serializeList xs = xs
  | .nil, _ => rfl
  | .cons v rest, h => by
      simp only [noDatetimeList, Bool.and_eq_true] at h
      simp [serializeList, serialize_id_of_noDatetime v h.1,
        serializeList_id_of_noDatetime rest h.2]
end

theorem serialize_idem (v : PyVal) :
    serialize_for_json (serialize_for_json v) = serialize_for_json v :=
  serialize_id_of_noDatetime _ (serialize_noDatetime v)

/-- C9: `serialize_for_json` replaces every datetime, at any nesting depth
inside dicts and lists, by its ISO-8601 string and returns every
non-datetime leaf unchanged: a datetime maps to its `isoformat` string, the
result contains no datetime, any value already containing no datetime is
returned unchanged (so the structure is preserved), and applying the
function twice equals applying it once. -/
theorem C9_serialize_for_json (v : PyVal) (d : PyDatetime) :
    serialize_for_json (.dt d) = .str (isoformat d)
    ∧ noDatetime (serialize_for_json v) = true
    ∧ (noDatetime v = true → serialize_for_json v = v)
    ∧ serialize_for_json (serialize_for_json v) = serialize_for_json v :=
  ⟨rfl, serialize_noDatetime v, serialize_id_of_noDatetime v, serialize_idem v⟩

/-- C9 witness: the conversion and the identity-on-clean-values cases of
`C9_serialize_for_json`, at a concrete nested value. -/
theorem C9_serialize_for_json_witness :
    serialize_for_json
        (.dict (.cons "t" (.dt ⟨2026, 10, 12, 7, 8, 9⟩)
          (.cons "xs" (.list (.cons (.int 5) .nil)) .nil)))
      = .dict (.cons "t" (.str "2026-10-12T07:08:09")
          (.cons "xs" (.list (.cons (.int 5) .nil)) .nil))
    ∧ serialize_for_json (.dict (.cons "a" (.int 5) .nil))
      = .dict (.cons "a" (.int 5) .nil) := by
  constructor
  · decide
  · exact (C9_serialize_for_json (.dict (.cons "a" (.int 5) .nil))
      ⟨0, 0, 0, 0, 0, 0⟩).2.2.1 (by decide)

/-- C8: session shutdown is idempotent — for every session state, invoking
`close` twice yields exactly the state of invoking it once: `is_active` is
already false and re-closing the (already closed) upstream handle is a
no-op, so there is no double-close error path. -/
theorem C8_close_idempotent (s : RealtimeSession) : close (close s) = close s := by
  cases h : s.openai_ws <;> simp [close, h]

/-- C6 counterexample: when opening the upstream connection fails during
startup, the caller receives ZERO control messages — not the single
`UpstreamUnavailable` error the claim requires (both loops never start and
the endpoint handler only logs the exception). -/
theorem C6_counterexample :
    (realtime_websocket trivialOracle (.fail "ConnectionRefusedError") [] [] "sid-1").callerMsgs
        = []
    ∧ (realtime_websocket trivialOracle
        (.fail "ConnectionRefusedError") [] [] "sid-1").clientCallerMsgs = [] :=
  ⟨rfl, rfl⟩

/-- C6 (amended): if opening the upstream connection fails during startup,
the exception propagates out of `run` (whose `finally` already ran `close`,
marking the session inactive), the endpoint handler swallows it and closes
again, and the handler returns — closing the caller connection — without
ever sending any frame to the caller or upstream: no error control message
is surfaced. -/
theorem C6_connect_failure (oracle : AgentOracle) (msg sid : String)
    (evs : List OpenAIEvent) (msgs : List ClientMsg) :
    realtime_websocket oracle (.fail msg) evs msgs sid
      = { final := { session_id := sid, is_active := false,
                     websocket_closed := false, openai_ws := Option.none },
          callerMsgs := [], clientCallerMsgs := [], upstreamMsgs := [],
          clientUpstreamMsgs := [], escapedExc := Option.none } := by
  simp [realtime_websocket, run, connect_to_openai, close]

/-- C2 counterexample: when the "user speech started" control signal arrives
(the upstream server-VAD event — the only speech-started signal in the
protocol) while a response turn is in flight, the session sends ZERO
upstream-bound frames — no cancellation signal — and there is no
`activeTurn` or cancellation token in the session state to invoke or clear;
the next caller audio frame is then forwarded with no cancellation having
been sent. -/
theorem C2_counterexample :
    processOpenAIEvent trivialOracle activeSession .speechStarted
        = .done [.userSpeechStarted] []
    ∧ processClientMessages activeSession [.audioAppend "QUFB"]
        = ([], [.inputAudioAppend "QUFB"]) := by
  constructor <;> rfl

/-- C2 (amended): the session keeps no `activeTurn` state and no
cancellation token; on the upstream speech-started signal it only forwards
a `user_speech_started` notice to the caller (barge-in cancellation is
delegated to upstream server VAD), and an upstream-bound `response.cancel`
is sent exactly once — before any later caller message is handled and with
no session-state change — precisely when the caller explicitly sends a
`response.cancel` (or legacy `cancel`) control message. -/
theorem C2_barge_in (oracle : AgentOracle) (s : RealtimeSession)
    (rest : List ClientMsg) (ha : s.is_active = true)
    (hw : s.websocket_closed = false) :
    processOpenAIEvent oracle s .speechStarted = .done [.userSpeechStarted] []
    ∧ processClientMessages s (.responseCancel :: rest)
        = ((processClientMessages s rest).1,
           UpstreamMsg.responseCancel :: (processClientMessages s rest).2)
    ∧ processClientMessages s (.legacyCancel :: rest)
        = ((processClientMessages s rest).1,
           UpstreamMsg.responseCancel :: (processClientMessages s rest).2) := by
  refine ⟨?_, ?_, ?_⟩
  · simp [processOpenAIEvent, hw]
  · simp [processClientMessages, processClientMessage, ha]
  · simp [processClientMessages, processClientMessage, ha]

/-- C2 witness: `C2_barge_in` on the active session with one pending audio
frame after the cancel. -/
theorem C2_barge_in_witness :
    processOpenAIEvent trivialOracle activeSession .speechStarted
        = .done [.userSpeechStarted] []
    ∧ processClientMessages activeSession [.responseCancel, .audioAppend "QQ=="]
        = ([], [UpstreamMsg.responseCancel, .inputAudioAppend "QQ=="]) := by
  have h := C2_barge_in trivialOracle activeSession [.audioAppend "QQ=="]
    (by decide) (by decide)
  exact ⟨h.1, by rw [h.2.1]; rfl⟩

/-- C4 counterexample: `handle_tool_call` imposes NO execution timeout — a
handler that never completes (here on `search_products`) leaves dispatch
without any result forever, so no terminated `ToolCallResult` is returned
within any bounded time. -/
theorem C4_counterexample :
    (handle_tool_call hangingOracle "search_products" .nil false).2
      = Option.none := rfl

/-- C4 (amended): dispatch invokes the handler with no execution timeout.
On any handler exception it catches the exception and returns the
terminated result `{"error": str(e)}` (a plain error payload — the source
has no distinguished `ProviderFailure` kind), never propagating; a handler
that never completes leaves dispatch waiting indefinitely, returning no
result at all. -/
theorem C4_dispatch_failure (oracle : AgentOracle) (name : String)
    (args : PyFields) (closed : Bool) (msg : String)
    (hagent : agentTools.contains name = true) :
    ((oracle name args).outcome = .exn msg →
      (handle_tool_call oracle name args closed).2
        = some (.dict (fieldsOf [("error", .str msg)])))
    ∧ ((oracle name args).outcome = .hang →
      (handle_tool_call oracle name args closed).2 = Option.none) := by
  have hm : name ∈ agentTools := by simpa using hagent
  constructor <;> intro h <;> simp [handle_tool_call, hm, h]

/-- C4 witness: `C4_dispatch_failure` at a raising handler and a hanging
handler for `search_products`. -/
theorem C4_dispatch_failure_witness :
    (handle_tool_call (raisingOracle "boom") "search_products" .nil false).2
        = some (.dict (fieldsOf [("error", .str "boom")]))
    ∧ (handle_tool_call hangingOracle "search_products" .nil false).2
        = Option.none := by
  constructor
  · exact (C4_dispatch_failure (raisingOracle "boom") "search_products" .nil false
      "boom" (by decide)).1 (by decide)
  · exact (C4_dispatch_failure hangingOracle "search_products" .nil false
      "boom" (by decide)).2 (by decide)

/-- C1 counterexample: a tool-call event whose arguments string is
unparseable JSON (`json.loads` raises at line 756, before dispatch) is
answered with NO `function_call_output`: the loop ends with only a
caller-bound error frame and sends zero upstream frames, leaving callId
`"c1"` unanswered — not the exactly-one reply the claim requires. -/
theorem C1_counterexample :
    countResultsFor "c1"
        (processOpenAIMessages trivialOracle activeSession
          [.functionCallArgsDone "c1" "view_cart" Option.none]).2 = 0
    ∧ (processOpenAIMessages trivialOracle activeSession
        [.functionCallArgsDone "c1" "view_cart" Option.none]).2 = [] := by
  constructor <;> rfl

/-- C1 (amended): for a tool-call event whose arguments string parses as
JSON, whenever the loop body completes, exactly one `function_call_output`
with the same callId is sent upstream — success payload and typed error
alike; when the body raises (in particular the unparseable-arguments case,
which raises in `json.loads` before dispatch can run) or when dispatch
never terminates, zero replies are sent for the call. -/
theorem C1_tool_call_totality (oracle : AgentOracle) (s : RealtimeSession)
    (callId name : String) (args : PyFields) :
    (match processOpenAIEvent oracle s (.functionCallArgsDone callId name (some args)) with
     | .done _ u => countResultsFor callId u = 1
     | .raised _ u _ => countResultsFor callId u = 0
     | .hung _ u => countResultsFor callId u = 0)
    ∧ processOpenAIEvent oracle s (.functionCallArgsDone callId name Option.none)
        = .raised [] [] "json.loads: Expecting value" := by
  constructor
  · simp only [processOpenAIEvent]
    rcases hh : handle_tool_call oracle name args s.websocket_closed with ⟨sends, resOpt⟩
    cases resOpt with
    | none => simp [countResultsFor]
    | some res =>
      by_cases hd : name = "get_diy_videos"
      · cases hv : videosCheck res with
        | error m => simp [hd, hv, countResultsFor, Except.map]
        | ok b => simp [hd, hv, countResultsFor, Except.map]
      · simp [hd, countResultsFor]
  · rfl

/-- C3 counterexample: tool dispatch is awaited inline — with a handler
that never completes on `search_products`, the audio-delta event queued
right behind the tool-call request is never forwarded (the whole trace is
empty), so a slow tool handler does stall upstream→caller audio
forwarding. -/
theorem C3_counterexample :
    processOpenAIMessages hangingOracle activeSession
      [.functionCallArgsDone "c1" "search_products" (some .nil),
       .responseAudioDelta "QkJC"]
      = ([], []) := rfl

/-- C3 (amended): tool dispatch is awaited inline by the upstream loop —
`handle_tool_call` is awaited within the very iteration that received the
request, so no later upstream event is processed until the handler
completes; a handler that never terminates therefore stalls upstream→caller
forwarding for the remainder of the session, whatever events follow, and
only the dispatch's own already-pushed frames remain in the trace. -/
theorem C3_inline_dispatch (oracle : AgentOracle) (s : RealtimeSession)
    (callId name : String) (args : PyFields) (rest : List OpenAIEvent)
    (hagent : agentTools.contains name = true)
    (hhang : (oracle name args).outcome = .hang)
    (ha : s.is_active = true) :
    processOpenAIMessages oracle s
        (.functionCallArgsDone callId name (some args) :: rest)
      = ((if s.websocket_closed then [] else (oracle name args).sideSends), []) := by
  have hm : name ∈ agentTools := by simpa using hagent
  simp [processOpenAIMessages, ha, processOpenAIEvent, handle_tool_call, hm, hhang]

/-- C3 witness: `C3_inline_dispatch` with a hanging `get_product_details`
handler and a pending audio delta. -/
theorem C3_inline_dispatch_witness :
    processOpenAIMessages hangingOracle activeSession
      [.functionCallArgsDone "c2" "get_product_details" (some .nil),
       .responseAudioDelta "Q0ND"]
      = ([], []) := by
  have h := C3_inline_dispatch hangingOracle activeSession "c2" "get_product_details"
    .nil [.responseAudioDelta "Q0ND"] (by decide) (by decide) (by decide)
  exact h.trans rfl

/-- C5: a tool-call request naming a tool with no registered handler is
answered, in the same loop iteration, with exactly the two upstream frames
`function_call_output` (same callId, payload `{"error": "Unknown tool:
<name>"}`) and `response.create`; nothing is sent to the caller, nothing is
raised — the unknown name never becomes a connection-level failure — and
the loop goes on to process the remaining events with the session state (in
particular `is_active`) untouched. -/
theorem C5_unknown_tool (oracle : AgentOracle) (s : RealtimeSession)
    (callId name : String) (args : PyFields) (rest : List OpenAIEvent)
    (h : ¬ name ∈ knownTools) (ha : s.is_active = true) :
    processOpenAIEvent oracle s (.functionCallArgsDone callId name (some args))
      = .done [] [UpstreamMsg.functionCallOutput callId (unknownToolResult name),
                  UpstreamMsg.responseCreate]
    ∧ processOpenAIMessages oracle s
        (.functionCallArgsDone callId name (some args) :: rest)
      = ((processOpenAIMessages oracle s rest).1,
         UpstreamMsg.functionCallOutput callId (unknownToolResult name)
           :: UpstreamMsg.responseCreate :: (processOpenAIMessages oracle s rest).2) := by
  have hag : ¬ name ∈ agentTools := fun hm => h (List.mem_append_left _ hm)
  have hssub : ∀ x ∈ searchTools, x ∈ agentTools := by decide
  have hs : ¬ name ∈ searchTools := fun hm => hag (hssub _ hm)
  have hcsub : ∀ x ∈ cartTools, x ∈ knownTools := by decide
  have hc : ¬ name ∈ cartTools := fun hm => h (hcsub _ hm)
  have hosub : ∀ x ∈ orderTools, x ∈ knownTools := by decide
  have ho : ¬ name ∈ orderTools := fun hm => h (hosub _ hm)
  have hd : name ≠ "get_diy_videos" := fun he => h (by subst he; decide)
  have h1 : name ≠ "view_cart" := fun he => h (by subst he; decide)
  have h2 : name ≠ "remove_from_cart" := fun he => h (by subst he; decide)
  have h3 : name ≠ "clear_cart" := fun he => h (by subst he; decide)
  have h4 : name ≠ "view_orders" := fun he => h (by subst he; decide)
  have h5 : name ≠ "get_order_by_number" := fun he => h (by subst he; decide)
  have hstep : processOpenAIEvent oracle s (.functionCallArgsDone callId name (some args))
      = .done [] [UpstreamMsg.functionCallOutput callId (unknownToolResult name),
                  UpstreamMsg.responseCreate] := by
    simp [processOpenAIEvent, handle_tool_call, hag, h1, h2, h3, h4, h5, hs, hc, ho,
      hd, unknownToolResult, serialize_for_json, serializeFields, fieldsOf]
  refine ⟨hstep, ?_⟩
  simp [processOpenAIMessages, ha, hstep]

/-- C5 witness: `C5_unknown_tool` at the unregistered name
`"frobnicate"`. -/
theorem C5_unknown_tool_witness :
    processOpenAIMessages trivialOracle activeSession
      [.functionCallArgsDone "c7" "frobnicate" (some .nil)]
      = ([], [UpstreamMsg.functionCallOutput "c7" (unknownToolResult "frobnicate"),
              UpstreamMsg.responseCreate]) := by
  have h := C5_unknown_tool trivialOracle activeSession "c7" "frobnicate" .nil []
    (by decide) (by decide)
  rw [h.2]; rfl

theorem handle_tool_call_closed_no_sends (oracle : AgentOracle)
    (name : String) (args : PyFields) :
    (handle_tool_call oracle name args true).1 = [] := by
  by_cases hm : name ∈ agentTools
  · cases ho : (oracle name args).outcome <;> simp [handle_tool_call, hm, ho]
  · simp only [handle_tool_call]
    rw [if_neg (by simpa using hm)]
    split_ifs <;> rfl

theorem processOpenAIEvent_closed_no_caller (oracle : AgentOracle)
    (s : RealtimeSession) (hw : s.websocket_closed = true) (ev : OpenAIEvent) :
    (processOpenAIEvent oracle s ev).callerFrames = [] := by
  cases ev with
  | functionCallArgsDone callId name argsOpt =>
    cases argsOpt with
    | none => simp [processOpenAIEvent, StepOut.callerFrames]
    | some args =>
      have hns := handle_tool_call_closed_no_sends oracle name args
      simp only [processOpenAIEvent, hw]
      rcases hh : handle_tool_call oracle name args true with ⟨sends, resOpt⟩
      rw [hh] at hns
      have hsends : sends = [] := by simpa using hns
      cases resOpt with
      | none => simp [StepOut.callerFrames, hsends]
      | some res =>
        by_cases hd : name = "get_diy_videos"
        · cases hv : videosCheck res with
          | error m => simp [hd, hv, StepOut.callerFrames, hsends, Except.map]
          | ok b => simp [hd, hv, StepOut.callerFrames, hsends, Except.map]
        · simp [hd, StepOut.callerFrames, hsends]
  | sessionCreated => simp [processOpenAIEvent, hw, StepOut.callerFrames]
  | responseAudioDelta d => simp [processOpenAIEvent, hw, StepOut.callerFrames]
  | responseAudioTranscriptDelta d => simp [processOpenAIEvent, hw, StepOut.callerFrames]
  | speechStarted => simp [processOpenAIEvent, hw, StepOut.callerFrames]
  | speechStopped => simp [processOpenAIEvent, hw, StepOut.callerFrames]
  | inputTranscriptionCompleted t => simp [processOpenAIEvent, hw, StepOut.callerFrames]
  | responseDone => simp [processOpenAIEvent, hw, StepOut.callerFrames]
  | errorEvent m => simp [processOpenAIEvent, hw, StepOut.callerFrames]
  | otherEvent t => simp [processOpenAIEvent, hw, StepOut.callerFrames]

theorem processOpenAIMessages_closed_no_caller (oracle : AgentOracle)
    (s : RealtimeSession) (hw : s.websocket_closed = true)
    (evs : List OpenAIEvent) :
    (processOpenAIMessages oracle s evs).1 = [] := by
  induction evs with
  | nil => rfl
  | cons ev rest ih =>
    have hev := processOpenAIEvent_closed_no_caller oracle s hw ev
    by_cases ha : s.is_active
    · simp only [processOpenAIMessages, ha, if_true]
      cases hst : processOpenAIEvent oracle s ev with
      | done c u =>
        rw [hst] at hev
        simp only [StepOut.callerFrames] at hev
        simp [hev, ih]
      | raised c u m =>
        rw [hst] at hev
        simp only [StepOut.callerFrames] at hev
        simp [hev, hw]
      | hung c u =>
        rw [hst] at hev
        simp only [StepOut.callerFrames] at hev
        simp [hev]
    · simp [processOpenAIMessages, ha]

/-- C10: once the caller loop has set `websocket_closed`, no further
caller-bound send happens in the upstream loop or in tool dispatch: every
caller-bound send site in `process_openai_messages` and `handle_tool_call`
is guarded on the flag, so with the flag set, dispatch pushes nothing, no
single event's handling (including the loop's final exception-handler
frame) produces a caller-bound frame, and the whole loop's caller trace is
empty. -/
theorem C10_closed_guards (oracle : AgentOracle) (s : RealtimeSession)
    (hw : s.websocket_closed = true) (name : String) (args : PyFields)
    (ev : OpenAIEvent) (evs : List OpenAIEvent) :
    (handle_tool_call oracle name args s.websocket_closed).1 = []
    ∧ (processOpenAIEvent oracle s ev).callerFrames = []
    ∧ (processOpenAIMessages oracle s evs).1 = [] := by
  rw [hw]
  exact ⟨handle_tool_call_closed_no_sends oracle name args,
    processOpenAIEvent_closed_no_caller oracle s hw ev,
    processOpenAIMessages_closed_no_caller oracle s hw evs⟩

/-- C10 witness: `C10_closed_guards` on the closed-socket session with a
dispatch, a response-done event and a two-event trace. -/
theorem C10_closed_guards_witness :
    (handle_tool_call trivialOracle "search_products" .nil
        closedSockSession.websocket_closed).1 = []
    ∧ (processOpenAIEvent trivialOracle closedSockSession .responseDone).callerFrames = []
    ∧ (processOpenAIMessages trivialOracle closedSockSession
        [.responseAudioDelta "RA==", .errorEvent "boom"]).1 = [] :=
  C10_closed_guards trivialOracle closedSockSession (by decide) "search_products"
    .nil .responseDone [.responseAudioDelta "RA==", .errorEvent "boom"]

theorem processOpenAIEvent_forward (oracle : AgentOracle) (s : RealtimeSession)
    (hw : s.websocket_closed = false) (ev : OpenAIEvent)
    (hf : isForwardEvent ev = true) :
    processOpenAIEvent oracle s ev = .done (forwardImage s.session_id ev) [] := by
  cases ev <;> simp_all [processOpenAIEvent, isForwardEvent, forwardImage]

theorem processOpenAIMessages_forward (oracle : AgentOracle)
    (s : RealtimeSession) (ha : s.is_active = true)
    (hw : s.websocket_closed = false) (evs : List OpenAIEvent)
    (hf : ∀ e ∈ evs, isForwardEvent e = true) :
    processOpenAIMessages oracle s evs
      = (concatMap (forwardImage s.session_id) evs, []) := by
  induction evs with
  | nil => rfl
  | cons ev rest ih =>
    have h1 := processOpenAIEvent_forward oracle s hw ev (hf ev (by simp))
    have h2 := ih (fun e he => hf e (by simp [he]))
    simp [processOpenAIMessages, ha, h1, h2, concatMap]

theorem forward_audio_extract (sid : String) (evs : List OpenAIEvent) :
    (concatMap (forwardImage sid) evs).filterMap callerAudioOf
      = evs.filterMap eventAudioOf := by
  induction evs with
  | nil => rfl
  | cons ev rest ih =>
    rw [concatMap, List.filterMap_append, List.filterMap_cons, ih]
    cases ev <;> rfl

theorem processClientMessages_order (s : RealtimeSession)
    (ha : s.is_active = true) (msgs : List ClientMsg) :
    processClientMessages s msgs
      = (concatMap (fun m => (processClientMessage m).1) msgs,
         concatMap (fun m => (processClientMessage m).2) msgs) := by
  induction msgs with
  | nil => rfl
  | cons m rest ih => simp [processClientMessages, ha, ih, concatMap]

theorem client_audio_extract (msgs : List ClientMsg) :
    (concatMap (fun m => (processClientMessage m).2) msgs).filterMap upstreamAudioOf
      = msgs.filterMap clientAudioOf := by
  induction msgs with
  | nil => rfl
  | cons m rest ih =>
    rw [concatMap, List.filterMap_append, List.filterMap_cons, ih]
    cases m <;> rfl

/-- C7: within each direction, frames are forwarded exactly in receipt
order.  Upstream→caller: for any interleaving of audio, control and
transcript events, the loop's caller trace is the in-order concatenation of
each event's forward (nothing reordered, dropped or added), and in
particular the forwarded audio sequence equals the received audio-delta
sequence.  Caller→upstream: the loop's upstream trace is the in-order
concatenation of each caller message's forward, and the forwarded audio
sequence equals the received audio sequence. -/
theorem C7_order_preservation (oracle : AgentOracle) (s : RealtimeSession)
    (evs : List OpenAIEvent) (msgs : List ClientMsg)
    (ha : s.is_active = true) (hw : s.websocket_closed = false)
    (hf : ∀ e ∈ evs, isForwardEvent e = true) :
    processOpenAIMessages oracle s evs
        = (concatMap (forwardImage s.session_id) evs, [])
    ∧ (processOpenAIMessages oracle s evs).1.filterMap callerAudioOf
        = evs.filterMap eventAudioOf
    ∧ processClientMessages s msgs
        = (concatMap (fun m => (processClientMessage m).1) msgs,
           concatMap (fun m => (processClientMessage m).2) msgs)
    ∧ (processClientMessages s msgs).2.filterMap upstreamAudioOf
        = msgs.filterMap clientAudioOf := by
  have h1 := processOpenAIMessages_forward oracle s ha hw evs hf
  have h3 := processClientMessages_order s ha msgs
  refine ⟨h1, ?_, h3, ?_⟩
  · rw [h1]
    exact forward_audio_extract s.session_id evs
  · rw [h3]
    exact client_audio_extract msgs

/-- C7 witness: `C7_order_preservation` at a concrete interleaving of
audio, control and transcript frames in each direction. -/
theorem C7_order_preservation_witness :
    processOpenAIMessages trivialOracle activeSession
        [.responseAudioDelta "YQ==", .speechStarted, .responseAudioDelta "Yg=="]
      = ([.audioChunk "YQ==", .userSpeechStarted, .audioChunk "Yg=="], [])
    ∧ processClientMessages activeSession
        [.audioAppend "eA==", .responseCancel, .audioAppend "eQ=="]
      = ([], [.inputAudioAppend "eA==", .responseCancel, .inputAudioAppend "eQ=="]) := by
  have h := C7_order_preservation trivialOracle activeSession
    [.responseAudioDelta "YQ==", .speechStarted, .responseAudioDelta "Yg=="]
    [.audioAppend "eA==", .responseCancel, .audioAppend "eQ=="]
    (by decide) (by decide) (by decide)
  exact ⟨h.1.trans rfl, h.2.2.1.trans rfl⟩

end Realtime
